import Mathlib

/-!
Verification of the check evaluation engine of the oci-dr-hpc-v2 health-check
scripts (shape BM.GPU.H100.8).  Python functions are shallowly embedded as
executable Lean definitions: each `def` below mirrors one function of the
source scripts, with loops rendered as structural recursion and Python's
dynamic values rendered as explicit sum types.  External collaborators
(`subprocess`, `json.loads`, `re.search`, `float`) are passed in as oracle
parameters, so every theorem quantifies over their behaviour.  Strings are
ASCII in all inputs these checks consume, so `Char.toLower` models
`str.lower` and the digit model below models `int(...)` on such strings.
-/

/-- Python whitespace characters as stripped by `str.strip()` / `int(...)`
(ASCII subset: space, tab, newline, carriage return, form feed, vertical
tab). -/
def pyIsSpace (c : Char) : Bool :=
  c = ' ' ∨ c = '\t' ∨ c = '\n' ∨ c = '\r' ∨ c = '\x0c' ∨ c = '\x0b'

/-- `str.strip()` on a character list: drop whitespace from both ends. -/
def pyStripChars (l : List Char) : List Char :=
  ((l.dropWhile pyIsSpace).reverse.dropWhile pyIsSpace).reverse

/-- Value of a decimal digit character. -/
def digitVal (c : Char) : Nat := c.toNat - 48

/-- No two consecutive underscores in the list. -/
def noDoubleUnderscore : List Char → Bool
  | [] => true
  | [_] => true
  | a :: b :: rest => !(a = '_' ∧ b = '_') && noDoubleUnderscore (b :: rest)

/-- The digit-part grammar accepted by Python's `int(str)`: nonempty, first
and last characters are digits, every character is a digit or `_`, and no
two underscores are adjacent (underscores are digit-group separators). -/
def pyIntDigitsOk (l : List Char) : Bool :=
  match l with
  | [] => false
  | c :: _ =>
    c.isDigit && (l.getLastD '0').isDigit &&
    l.all (fun d => d.isDigit || d = '_') && noDoubleUnderscore l

/-- Numeric value of a digit/underscore list (underscores skipped). -/
def pyDigitsVal (l : List Char) : Nat :=
  (l.filter Char.isDigit).foldl (fun acc c => 10 * acc + digitVal c) 0

/-- Model of Python `int(s)` for ASCII strings: strip whitespace, optional
sign, then digits with optional single underscore separators; `none` models
a raised `ValueError`. -/
def pyInt (s : String) : Option Int :=
  match pyStripChars s.data with
  | '+' :: rest => if pyIntDigitsOk rest then some (pyDigitsVal rest) else none
  | '-' :: rest => if pyIntDigitsOk rest then some (-(pyDigitsVal rest : Int)) else none
  | rest => if pyIntDigitsOk rest then some (pyDigitsVal rest) else none

/-- `isint` helper shared by `sram_error_check.py` and `rx_discards_check.py`:
`int(num)` succeeds. -/
def isint (num : String) : Bool :=
  (pyInt num).isSome

/-- Does some string in the list hold an integer strictly above `t`?  This is
the effect of the `for value in ...: if isint(value): if int(value) > t:`
loops of `parse_sram_results` (the loop body only ever assigns one constant
status, so the final status depends only on whether any element triggers). -/
def anyIntAbove (l : List String) (t : Int) : Bool :=
  l.any (fun v =>
    match pyInt v with
    | some n => n > t
    | none => false)

/-- `parse_sram_results` of `sram_error_check.py`: status starts `PASS`,
becomes `FAIL` when either input list is empty, is set to `FAIL` by the
uncorrectable loop when some entry exceeds `sram_uncorrectable_threshold`,
and is then (unconditionally, overwriting any previous value) set to the
`WARN` string by the correctable loop when some entry exceeds
`sram_correctable_threshold`.  Returns the `"status"` field of the
`{"sram": {"status": ...}}` result. -/
def parse_sram_results (sram_uncorrectable_list sram_correctable_list : List String)
    (sram_uncorrectable_threshold sram_correctable_threshold : Int) : String :=
  let status0 :=
    if sram_uncorrectable_list.length = 0 ∨ sram_correctable_list.length = 0
    then "FAIL" else "PASS"
  let status1 :=
    if anyIntAbove sram_uncorrectable_list sram_uncorrectable_threshold
    then "FAIL" else status0
  if anyIntAbove sram_correctable_list sram_correctable_threshold
  then "WARN - SRAM Correctable Exceeded Threshold" else status1

/-- Remove every space character: Python `line.replace(' ', '')`. -/
def pyRemoveSpaces (l : List Char) : List Char :=
  l.filter (fun c => c ≠ ' ')

/-- Split a character list on `:` separators, Python `str.split(':')`
semantics (keeps empty fields, always at least one field). -/
def pySplitColonGo : List Char → List Char → List (List Char)
  | [], cur => [cur.reverse]
  | c :: rest, cur =>
    if c = ':' then cur.reverse :: pySplitColonGo rest []
    else pySplitColonGo rest (c :: cur)

/-- `str.split(':')` as strings. -/
def pySplitColon (s : String) : List String :=
  (pySplitColonGo s.data []).map String.mk

/-- One result of `parse_rx_discards_results`: the inner dict
`{"device": ..., "status": ...}` of the `rx_discards` key. -/
structure RxResult where
  device : String
  status : String
  deriving DecidableEq, Repr

/-- The per-line loop of `parse_rx_discards_results`: for each non-empty
line take field 1 of `line.replace(' ','').split(':')` (`none` result models
the uncaught `IndexError` when a line has no colon), `FAIL` and break when
the value is non-integer or exceeds the threshold, otherwise continue with
the running status. -/
def rxLoop (threshold : Int) : List String → String → Option String
  | [], st => some st
  | line :: rest, st =>
    if line.length > 0 then
      match (pySplitColon (String.mk (pyRemoveSpaces line.data))).get? 1 with
      | none => none
      | some discards =>
        match pyInt discards with
        | none => some "FAIL"
        | some d => if d > threshold then some "FAIL" else rxLoop threshold rest st
    else rxLoop threshold rest st

/-- `parse_rx_discards_results` of `rx_discards_check.py`.  Outside the
cluster the default `PASS` result is returned untouched; in-cluster an empty
result list is an immediate `FAIL` and otherwise each line's discard count
is compared against the threshold.  `none` models the uncaught
`IndexError` on a colon-free non-empty line. -/
def parse_rx_discards_results (interface : String) (results : List String)
    (rx_discards_check_threshold : Int) (in_cluster_flag : Bool) : Option RxResult :=
  if in_cluster_flag then
    let st0 := if results.length = 0 then "FAIL" else "PASS"
    (rxLoop rx_discards_check_threshold results st0).map (fun st => ⟨interface, st⟩)
  else
    some ⟨interface, "PASS"⟩

/-- Python `str.lower()` for the ASCII strings these checks consume,
character-wise `Char.toLower`. -/
def pyLowerStr (s : String) : String :=
  String.mk (s.data.map Char.toLower)

/-- `normalize_pci_address` of `cdfp_cable_check.py`: lower-case the
address; when it starts with six `0` characters, replace those six
characters by `"00"` (rewriting the 8-hex-digit zero domain to the short
domain form), lower-casing the remainder. -/
def normalize_pci_address (pci_addr : String) : String :=
  if List.isPrefixOf ['0', '0', '0', '0', '0', '0'] pci_addr.data then
    String.mk ('0' :: '0' :: (pci_addr.data.drop 6).map Char.toLower)
  else
    String.mk (pci_addr.data.map Char.toLower)

/-- Set difference used for
`",".join(iter(set(gpu_bus_ids) - set(parsed_results)))`: deduplicate the
left list, then drop members of the right list.  (Python's set iteration
order is unspecified; theorems below only inspect this branch when the
difference has at most one element, where the order is immaterial.) -/
def pySetDiff (l r : List String) : List String :=
  (l.dedup).filter (fun x => x ∉ r)

/-- `parse_gpu_count_results` of `gpu_count_check.py`: lower-case the
expected bus ids, count the non-empty reported lines, collect reported
lines whose lower-case form is not among the expected ids, and classify:
`PASS` when nothing failed and counts agree, otherwise `wrong busid` when
the counts agree and `missing` when they differ.  Returns the
`"device_count"` field of the `{"gpu": {"device_count": ...}}` result. -/
def parse_gpu_count_results (raw_result : List String) (known_gpu_busids : List String) :
    String :=
  let gpu_bus_ids := known_gpu_busids.map pyLowerStr
  let expected_gpu_count := gpu_bus_ids.length
  let gpu_count_result := (raw_result.filter (fun item => item ≠ "")).length
  let parsed_results := raw_result
  let fail_list := raw_result.filter
    (fun line => line.length > 0 ∧ pyLowerStr line ∉ gpu_bus_ids)
  if fail_list = [] ∧ expected_gpu_count = gpu_count_result then "PASS"
  else if expected_gpu_count = gpu_count_result then
    "FAIL - wrong busid: " ++ String.intercalate "," fail_list
  else
    "FAIL - missing: " ++ String.intercalate "," (pySetDiff gpu_bus_ids parsed_results)

/-- Outcome of one `subprocess.run` invocation, as observed by the calling
helper: normal completion with exit status and captured streams, expiry of
the timeout passed to `subprocess.run` (only possible when a timeout was
passed), or another raised exception. -/
inductive ExecOutcome where
  | completed (returncode : Int) (stdout : String) (stderr : String)
  | timedOut
  | excOther (msg : String)
  deriving DecidableEq, Repr

/-- The `timeout` argument `run_command` of
`pcie_width_missing_lanes_check.py` passes to `subprocess.run`
(`timeout=30`). -/
def run_command_timeout : Option Nat := some 30

/-- `run_command` of `pcie_width_missing_lanes_check.py`: returns
`(exit_code, stdout.strip(), stderr.strip())`; `subprocess.TimeoutExpired`
is mapped to `(124, "", "Command timed out")` and any other exception to
`(1, "", str(e))`. -/
def run_command (outcome : ExecOutcome) : Int × String × String :=
  match outcome with
  | .completed rc out err =>
    (rc, String.mk (pyStripChars out.data), String.mk (pyStripChars err.data))
  | .timedOut => (124, "", "Command timed out")
  | .excOther msg => (1, "", msg)

/-- The `timeout` argument `run_cmd` of `link_check.py` passes to
`subprocess.run`: none — the call is
`subprocess.run(cmd_split, shell=False, stdout=..., stderr=..., check=True,
encoding='utf8')` with no `timeout` keyword, so the invocation is
unbounded. -/
def run_cmd_timeout : Option Nat := none

/-- The command helper of `link_check.py` (there spelled with the same name
as the Lean command-elaboration keyword, so renamed here): on success the
stdout lines, and on `subprocess.CalledProcessError` the single line
`"Error: " ++ cmd ++ " " ++ returncode ++ " " ++ output`.  No timeout is
passed, so a `timedOut` outcome cannot arise from this helper; it is mapped
to the impossible branch value `[]` purely to keep the model total. -/
def run_cmd_model (cmd : String) (outcome : ExecOutcome) : List String :=
  match outcome with
  | .completed rc out _ =>
    if rc = 0 then out.splitOn "\n"
    else ["Error: " ++ cmd ++ " " ++ toString rc ++ " " ++ out]
  | .timedOut => []
  | .excOther _ => []

/-- A scalar JSON/Python value: an integer or a string. -/
inductive PyScalar where
  | sInt (n : Int)
  | sStr (s : String)
  deriving DecidableEq, Repr

/-- A JSON/Python value as read out of the parsed `mlxlink` payload: a
scalar or a list of scalars (nested lists do not occur in this output). -/
inductive PyVal where
  | scalar (v : PyScalar)
  | vList (l : List PyScalar)
  deriving DecidableEq, Repr

/-- Python `int(x)` on a scalar: identity on integers, `pyInt` on strings;
`none` models the raised `ValueError`. -/
def pyIntScalar : PyScalar → Option Int
  | .sInt n => some n
  | .sStr s => pyInt s

/-- Python `str(x)` on a scalar. -/
def pyStrScalar : PyScalar → String
  | .sInt n => toString n
  | .sStr s => s

/-- Python `int(x)` on a value (`int` of a list raises `TypeError`,
modelled as `none`). -/
def pyIntVal : PyVal → Option Int
  | .scalar v => pyIntScalar v
  | .vList _ => none

/-- Python `str(x)` on a value (list repr with quoted strings). -/
def pyStrVal : PyVal → String
  | .scalar v => pyStrScalar v
  | .vList l =>
    let item := fun (e : PyScalar) =>
      match e with
      | .sInt n => toString n
      | .sStr s => String.mk [Char.ofNat 39] ++ s ++ String.mk [Char.ofNat 39]
    "[" ++ String.intercalate ", " (l.map item) ++ "]"

/-- The `result.output` object of a parsed `mlxlink --json` payload: the
three section dicts read by `parse_link_results`.  (A payload in which one
of the three section keys is absent makes the source raise an uncaught
`KeyError`; such payloads are outside this type and outside every claim.) -/
structure MlxPayload where
  opInfo : List (String × String)
  tsInfo : List (String × String)
  pcInfo : List (String × PyVal)
  deriving DecidableEq, Repr

/-- Python `dict.get(key, "")` on a string-valued dict. -/
def dictGetS (d : List (String × String)) (key : String) : String :=
  ((d.find? (fun p => p.1 = key)).map Prod.snd).getD ""

/-- Python `dict.get(key, default)` on the counters dict. -/
def dictGetV (d : List (String × PyVal)) (key : String) (default : PyVal) : PyVal :=
  ((d.find? (fun p => p.1 = key)).map Prod.snd).getD default

/-- `parse_raw_physical_errors_per_lane` of `parse_link_results`
(`link_check.py`): a list value is returned unchanged; any other value is
fed to `[int(x) for x in val if x != "undefined"]`, which iterates the
characters of a string (a one-character string never equals `"undefined"`,
so the filter drops nothing) and yields their digit values — any non-digit
character raises, and the `except` clause returns `[]`.  Iterating an
integer raises `TypeError`, also giving `[]`. -/
def parse_raw_physical_errors_per_lane (val : PyVal) : List PyScalar :=
  match val with
  | .vList l => l
  | .scalar (.sStr s) =>
    if s.data.all Char.isDigit then
      s.data.map (fun c => PyScalar.sInt (digitVal c))
    else []
  | .scalar (.sInt _) => []

/-- The `for lane_error in raw_physical_errors_per_lane` loop of
`parse_link_results`, wrapped in `try ... except`: skip `"undefined"`
entries, `"WARN - Unknown"` when `int(lane_error)` raises, and on the first
entry above the threshold break with `"WARN - "` followed by the
space-joined entries; the field keeps its initial `"PASS"` when the loop
completes. -/
def lane_loop (threshold : Int) (lanes : List PyScalar) : List PyScalar → String
  | [] => "PASS"
  | e :: rest =>
    if e = PyScalar.sStr "undefined" then lane_loop threshold lanes rest
    else
      match pyIntScalar e with
      | none => "WARN - Unknown"
      | some n =>
        if n > threshold then
          "WARN - " ++ String.intercalate " " (lanes.map pyStrScalar)
        else lane_loop threshold lanes rest

/-- A single quote character, used by Python list reprs in messages. -/
def pyQuote : String := String.mk [Char.ofNat 39]

/-- The message Python renders for
`f"FAIL - {phys_state}, expected {expected_phys_state}"` where
`expected_phys_state = ["LinkUp", "ETH_AN_FSM_ENABLE"]`. -/
def physStateFailMsg (phys_state : String) : String :=
  "FAIL - " ++ phys_state ++ ", expected [" ++ pyQuote ++ "LinkUp" ++ pyQuote ++
    ", " ++ pyQuote ++ "ETH_AN_FSM_ENABLE" ++ pyQuote ++ "]"

/-- Python substring containment `needle in hay`. -/
def isSubstringOf (needle : List Char) : List Char → Bool
  | [] => needle.isEmpty
  | c :: rest => List.isPrefixOf needle (c :: rest) || isSubstringOf needle rest

/-- Python `float(x)` on a value, as an oracle `pf` for strings (`float` of
a string is IEEE parsing, modelled as an abstract partial map to ℚ);
`float` of an int is exact, and `float` of a list raises (`none`). -/
def pyFloatVal (pf : String → Option ℚ) : PyVal → Option ℚ
  | .scalar (.sInt n) => some (n : ℚ)
  | .scalar (.sStr s) => pf s
  | .vList _ => none

/-- `parse_link_results` of `link_check.py`, given the `float` oracle `pf`
and the oracle `jload` for the `try` expression
`json.loads(results)["result"]["output"]` (`none` models any exception
raised there: invalid JSON or missing `result`/`output` keys).  Raw output
lines are joined; output beginning with `"Error:"` is scanned for a `"{"`
and sliced from it, else the invalid-interface failure is returned, as it
also is for whitespace-only output.  Otherwise the eight per-field
evaluations are produced in the source's insertion order. -/
def parse_link_results (pf : String → Option ℚ) (jload : String → Option MlxPayload)
    (interface : String) (raw_result : List String) (expected_speed : String)
    (raw_physical_errors_per_lane_threshold : Int)
    (effective_physical_errors_threshold : Int) : List (String × String) :=
  let results0 : List Char := (raw_result.map String.data).flatten
  let invalid := [("device", interface),
                  ("status", "FAIL - Invalid interface: " ++ interface)]
  let afterError : Option (List Char) :=
    if List.isPrefixOf "Error:".data results0 then
      if results0.contains '{' then some (results0.dropWhile (fun c => c ≠ '{'))
      else none
    else some results0
  match afterError with
  | none => invalid
  | some results =>
    if pyStripChars results = [] then invalid
    else
      match jload (String.mk results) with
      | none => [("device", interface),
                 ("status", "FAIL - Unable to parse mlxlink output")]
      | some output =>
        let speed := dictGetS output.opInfo "Speed"
        let state := dictGetS output.opInfo "State"
        let phys_state := dictGetS output.opInfo "Physical state"
        let status_opcode := dictGetS output.tsInfo "Status Opcode"
        let recommendation := dictGetS output.tsInfo "Recommendation"
        let effective_physical_errors :=
          dictGetV output.pcInfo "Effective Physical Errors" (.scalar (.sStr ""))
        let effective_physical_ber :=
          dictGetV output.pcInfo "Effective Physical BER" (.scalar (.sStr ""))
        let raw_physical_errors_per_lane := parse_raw_physical_errors_per_lane
          (dictGetV output.pcInfo "Raw Physical Errors Per Lane" (.vList []))
        let raw_physical_ber :=
          dictGetV output.pcInfo "Raw Physical BER" (.scalar (.sStr ""))
        [("device", interface),
         ("link_speed",
          if isSubstringOf expected_speed.data speed.data then "PASS"
          else "FAIL - " ++ speed ++ ", expected " ++ expected_speed),
         ("link_state",
          if state = "Active" then "PASS"
          else "FAIL - " ++ state ++ ", expected Active"),
         ("physical_state",
          if phys_state = "LinkUp" ∨ phys_state = "ETH_AN_FSM_ENABLE" then "PASS"
          else physStateFailMsg phys_state),
         ("link_status",
          if status_opcode = "0" then "PASS" else "FAIL - " ++ recommendation),
         ("effective_physical_errors",
          match pyIntVal effective_physical_errors with
          | some n =>
            if n > effective_physical_errors_threshold then
              "FAIL - " ++ pyStrVal effective_physical_errors
            else "PASS"
          | none => "PASS"),
         ("effective_physical_ber",
          match pyFloatVal pf effective_physical_ber with
          | some q => if q < 1 / 10 ^ 12 then "PASS"
                      else "FAIL - " ++ pyStrVal effective_physical_ber
          | none => "FAIL - " ++ pyStrVal effective_physical_ber),
         ("raw_physical_errors_per_lane",
          lane_loop raw_physical_errors_per_lane_threshold
            raw_physical_errors_per_lane raw_physical_errors_per_lane),
         ("raw_physical_ber",
          match pyFloatVal pf raw_physical_ber with
          | some q => if q < 1 / 10 ^ 5 then "PASS"
                      else "FAIL - " ++ pyStrVal raw_physical_ber
          | none => "FAIL - " ++ pyStrVal raw_physical_ber)]

/-- The expected RDMA mlx device list hard-coded in `run_link_check`. -/
def expected_mlx_devices : List String :=
  ["mlx5_0", "mlx5_1", "mlx5_3", "mlx5_4", "mlx5_5", "mlx5_6", "mlx5_7", "mlx5_8",
   "mlx5_9", "mlx5_10", "mlx5_12", "mlx5_13", "mlx5_14", "mlx5_15", "mlx5_16", "mlx5_17"]

/-- Python dict assignment `m[k] = v`: overwrite in place when the key
exists, else append. -/
def dictInsertS (m : List (String × String)) (k v : String) : List (String × String) :=
  if m.any (fun p => p.1 = k) then
    m.map (fun p => if p.1 = k then (k, v) else p)
  else m ++ [(k, v)]

/-- Python `str.split()` with no argument: split on whitespace runs,
discarding empty fields. -/
def pySplitWs (s : String) : List String :=
  ((s.data.splitOnP pyIsSpace).map String.mk).filter (fun t => t ≠ "")

/-- The `device_to_interface_map` loop of `run_link_check`: for every line
of the device-listing output with at least five whitespace-separated
fields, map field 0 (device) to field 4 (interface). -/
def device_to_interface_map (raw_result : List String) : List (String × String) :=
  raw_result.foldl
    (fun m line =>
      let parts := pySplitWs line
      if parts.length ≥ 5 then dictInsertS m (parts.getD 0 "") (parts.getD 4 "")
      else m)
    []

/-- The all-fields-`FAIL` placeholder `run_link_check` appends for an
expected device absent from the device mapping. -/
def failure_result (expected_device : String) : List (String × String) :=
  let msg := "FAIL - Device " ++ expected_device ++ " not found"
  [("device", expected_device),
   ("link_speed", msg), ("link_state", msg), ("physical_state", msg),
   ("link_status", msg), ("effective_physical_errors", msg),
   ("effective_physical_ber", msg), ("raw_physical_errors_per_lane", msg),
   ("raw_physical_ber", msg)]

/-- The first loop of `run_link_check` over the expected devices: mapped
devices yield their interface (in order) for probing, missing devices yield
their failure placeholder (in order). -/
def build_interface_lists (m : List (String × String)) :
    List String → List String × List (List (String × String))
  | [] => ([], [])
  | d :: rest =>
    let (itc, ir) := build_interface_lists m rest
    if m.any (fun p => p.1 = d) then
      ((((m.find? (fun p => p.1 = d)).map Prod.snd).getD "") :: itc, ir)
    else
      (itc, failure_result d :: ir)

/-- `run_link_check` of `link_check.py` after binary discovery, given the
probe oracle (`mlxlink` output lines per device name) and the parse oracles.
Builds the device map from the `ibdev2netdev` lines, collects interfaces
and missing-device failures over `expected_mlx_devices`, models the
`RuntimeError` raised when both collections are empty as `none`, and
otherwise probes each collected interface (device name recovered by reverse
lookup; no device means empty raw output) and appends each
`parse_link_results` entry after the failures. -/
def run_link_check (pf : String → Option ℚ) (jload : String → Option MlxPayload)
    (mapLines : List String) (probe : String → List String) :
    Option (List (List (String × String))) :=
  let m := device_to_interface_map mapLines
  let bl := build_interface_lists m expected_mlx_devices
  if bl.1 = [] ∧ bl.2 = [] then none
  else
    some (bl.2 ++ bl.1.map (fun interface =>
      let device_name := (m.find? (fun p => p.2 = interface)).map Prod.fst
      let raw := match device_name with
        | some dn => probe dn
        | none => []
      parse_link_results pf jload interface raw "200G" 10000 0))

/-- Loop state of `parse_nvlink_results` (`nvlink_speed_check.py`): the
current GPU number captured by the last GPU header line (`None` before
any), the qualifying-link count since that header, the per-GPU count dict
(insertion-ordered, as a Python dict), and the running status string. -/
structure NvState where
  gpu_num : Option String
  count : Int
  dict : List (Option String × Int)
  status : String
  deriving DecidableEq, Repr

/-- Python dict assignment for the nvlink count dict. -/
def dictInsertO (m : List (Option String × Int)) (k : Option String) (v : Int) :
    List (Option String × Int) :=
  if m.any (fun p => p.1 = k) then
    m.map (fun p => if p.1 = k then (k, v) else p)
  else m ++ [(k, v)]

/-- The trailing `if count: nvlink_dict[gpu_num] = count` executed after
every line of the nvlink loop. -/
def nvDictPost (st : NvState) : NvState :=
  if st.count ≠ 0 then { st with dict := dictInsertO st.dict st.gpu_num st.count }
  else st

/-- One iteration of the `for line in results` loop of
`parse_nvlink_results`.  `g` is the oracle for
`re.search('GPU\\s+(\\d+):\\s+(?:NVIDIA|HGX)', line)` returning the captured
GPU number, `l` the oracle for
`re.search('\\s+Link\\s+(\\d+):\\s+(.*)\\s+GB/s', line)` returning the
captured speed text, and `pf` the `float` oracle; `none` models the
uncaught `ValueError` when `float(link_speed)` raises.  A GPU header
resets the count; a link line not containing `"inactive"` counts when its
speed is at least the expected speed; any other line overwrites the status
with the unexpected-entry failure. -/
def nvStep (g l : String → Option String) (pf : String → Option ℚ)
    (expected_speed : ℚ) (st : NvState) (line : String) : Option NvState :=
  match g line with
  | some gid => some (nvDictPost { st with gpu_num := some gid, count := 0 })
  | none =>
    match l line with
    | some cap =>
      if isSubstringOf "inactive".data line.data then some (nvDictPost st)
      else
        match pf cap with
        | none => none
        | some q =>
          some (nvDictPost
            { st with count := if q ≥ expected_speed then st.count + 1 else st.count })
    | none =>
      some (nvDictPost
        { st with status :=
            "FAIL - unexpected entry in nvidia-smi nvlink -s output, output: " ++ line })

/-- The full line loop of `parse_nvlink_results` from a given state. -/
def nvRun (g l : String → Option String) (pf : String → Option ℚ)
    (expected_speed : ℚ) (st : NvState) : List String → Option NvState
  | [] => some st
  | line :: rest =>
    match nvStep g l pf expected_speed st line with
    | none => none
    | some st1 => nvRun g l pf expected_speed st1 rest

/-- The per-GPU count dict built by `parse_nvlink_results` on the given
input (a projection of the same loop used by the parser). -/
def nvlinkDict (g l : String → Option String) (pf : String → Option ℚ)
    (results : List String) (expected_speed : ℚ) : Option (List (Option String × Int)) :=
  (nvRun g l pf expected_speed
    ⟨none, 0, [], if results.length = 0 then "FAIL - check GPU " else "PASS"⟩
    results).map NvState.dict

/-- `parse_nvlink_results` of `nvlink_speed_check.py`, over the `re.search`
and `float` oracles.  The status starts `PASS`, or the empty-input failure
when no lines were returned; after the loop, every dict key whose count
differs from the expected count (or any key at all when the input was
empty) joins the fail list, and a non-empty fail list produces the
`"FAIL - check GPU "` message with the joined GPU numbers.  `none` models
an uncaught exception (a raising `float`, or `",".join` over a `None`
key). -/
def parse_nvlink_results (g l : String → Option String) (pf : String → Option ℚ)
    (results : List String) (expected_speed : ℚ) (expected_count : Int) :
    Option String :=
  let init : NvState :=
    ⟨none, 0, [], if results.length = 0 then "FAIL - check GPU " else "PASS"⟩
  match nvRun g l pf expected_speed init results with
  | none => none
  | some st =>
    let fail_list := (st.dict.filter
      (fun p => p.2 ≠ expected_count ∨ results.length = 0)).map Prod.fst
    if fail_list = [] then some st.status
    else if fail_list.all Option.isSome then
      some ("FAIL - check GPU " ++
        String.intercalate "," (fail_list.map (fun o => o.getD "")))
    else none

/-- Well-formedness of one nvlink output line as a link line: it does not
match the GPU-header pattern, it matches the link pattern, and unless it
contains `"inactive"` its captured speed is parseable by `float`.  (The two
`re.search` patterns and `float` are the oracles `g`, `l`, `pf`.) -/
def nvLinkLineOk (g l : String → Option String) (pf : String → Option ℚ)
    (line : String) : Bool :=
  (g line).isNone &&
  (match l line with
   | none => false
   | some cap =>
     if isSubstringOf "inactive".data line.data then true
     else (pf cap).isSome)

/-- A link line that increments the per-GPU count: not a GPU header, link
pattern matched, not inactive, and speed at least the expected speed. -/
def nvLinkQualifies (g l : String → Option String) (pf : String → Option ℚ)
    (esp : ℚ) (line : String) : Bool :=
  (g line).isNone &&
  (match l line with
   | none => false
   | some cap =>
     if isSubstringOf "inactive".data line.data then false
     else match pf cap with
       | some q => decide (q ≥ esp)
       | none => false)

/-- The raw line list of a sequence of GPU sections, each a header line
followed by its link lines. -/
def nvSectionLines (sections : List (String × List String)) : List String :=
  (sections.map (fun sec => sec.1 :: sec.2)).flatten

/-- Per-section dict evolution: a section with zero qualifying links leaves
the dict untouched, any other section writes its qualifying-link count under
its GPU number. -/
def nvSectionsFold (g l : String → Option String) (pf : String → Option ℚ) (esp : ℚ) :
    List (String × List String) → List (Option String × Int) → List (Option String × Int)
  | [], d => d
  | sec :: rest, d =>
    let k := (sec.2.filter (nvLinkQualifies g l pf esp)).length
    nvSectionsFold g l pf esp rest
      (if k = 0 then d else dictInsertO d (g sec.1) (k : Int))

/-- Concrete GPU-header matcher oracle used by the C10 witness, consistent
with `re.search` on the two header lines it is applied to. -/
def gW : String → Option String := fun s =>
  if s = "GPU 0: NVIDIA H100" then some "0"
  else if s = "GPU 1: NVIDIA H100" then some "1" else none

/-- Concrete link-line matcher oracle used by the C10 witness. -/
def lW : String → Option String := fun s =>
  if s = " Link 0: 26 GB/s" then some "26"
  else if s = " Link 1: inactive GB/s" then some "inactive" else none

/-- Concrete float oracle used by the C10 witness. -/
def pfW : String → Option ℚ := fun s => if s = "26" then some 26 else none

/-- C10 witness input: GPU 0 with one qualifying link, GPU 1 with only an
inactive link. -/
def sectionsW : List (String × List String) :=
  [("GPU 0: NVIDIA H100", [" Link 0: 26 GB/s"]),
   ("GPU 1: NVIDIA H100", [" Link 1: inactive GB/s"])]

/-! ## Shared helper lemmas -/

/-- `Char.ofNat` round-trips on codepoints below the surrogate range. -/
theorem toNat_ofNat_valid (n : Nat) (h : n < 55296) : (Char.ofNat n).toNat = n := by
  have hv : n.isValidChar := Or.inl h
  simp only [Char.ofNat, dif_pos hv, Char.ofNatAux, Char.toNat]
  simp [UInt32.toNat]

/-- Only the digit `'0'` lower-cases to `'0'`. -/
theorem toLower_eq_zero_iff (c : Char) : Char.toLower c = '0' ↔ c = '0' := by
  constructor
  · intro h
    simp only [Char.toLower] at h
    split at h
    · rename_i hc
      have h1 := congrArg Char.toNat h
      rw [toNat_ofNat_valid (c.toNat + 32) (by omega)] at h1
      have : ('0' : Char).toNat = 48 := by decide
      omega
    · exact h
  · rintro rfl
    decide

/-- An all-zeros pattern is a prefix of a lower-cased list exactly when it is
a prefix of the original list. -/
theorem isPrefixOf_zeros_map (p : List Char) (hp : ∀ c ∈ p, c = '0') :
    ∀ l : List Char,
      List.isPrefixOf p (l.map Char.toLower) = List.isPrefixOf p l := by
  induction p with
  | nil => intro l; simp [List.isPrefixOf]
  | cons a as ih =>
    intro l
    cases l with
    | nil => simp [List.map]
    | cons b bs =>
      have ha : a = '0' := hp a (by simp)
      subst ha
      have ihs := ih (fun c hc => hp c (by simp [hc])) bs
      simp only [List.map_cons, List.isPrefixOf]
      by_cases hb : b = '0'
      · subst hb
        rw [show Char.toLower '0' = '0' from by decide, ihs]
      · have hlb : Char.toLower b ≠ '0' := fun h => hb ((toLower_eq_zero_iff b).1 h)
        have e1 : (('0' : Char) == Char.toLower b) = false := by
          rw [beq_eq_false_iff_ne]
          exact fun h => hlb h.symm
        have e2 : (('0' : Char) == b) = false := by
          rw [beq_eq_false_iff_ne]
          exact fun h => hb h.symm
        rw [e1, e2]
        simp

/-! ## Claim C1 -/

/-- C1: the claim says a FAIL evaluation is never overwritten by a later
WARN, and in particular that `parse_sram_results` with an uncorrectable
count above its threshold and a correctable count above its threshold
returns FAIL.  The code violates this (contradicting the function's own
docstring, which assigns FAIL whenever the uncorrectable count exceeds the
threshold): with uncorrectable count 10 over threshold 5 and correctable
count 2000 over threshold 1000, the correctable loop overwrites the FAIL
and the check returns the WARN status. -/
theorem sram_warn_overwrites_fail :
    parse_sram_results ["10"] ["2000"] 5 1000 = "WARN - SRAM Correctable Exceeded Threshold" ∧
    parse_sram_results ["10"] ["2000"] 5 1000 ≠ "FAIL" := by decide

/-! ## Claim C2 -/

/-- C2 counterexample: contrary to the claim, a value exactly equal to the
FAIL threshold is not classified FAIL — both `parse_sram_results` (count 5
at threshold 5) and in-cluster `parse_rx_discards_results` (count 100 at
threshold 100) return PASS at the boundary, since the code uses a strict
comparison. -/
theorem threshold_boundary_cex :
    parse_sram_results ["5"] ["0"] 5 1000 = "PASS" ∧
    parse_rx_discards_results "enp12s0f0" ["rx_prio0_discards: 100"] 100 true =
      some ⟨"enp12s0f0", "PASS"⟩ := by decide

/-- C2 amended: the threshold boundary is open on the failing side — a
value strictly above the threshold is FAIL, and a value equal to (or below)
the threshold is PASS, for the SRAM uncorrectable counter and the
in-cluster RX-discard counter alike. -/
theorem threshold_boundary_strict (s : String) (n t : Int) (hs : pyInt s = some n)
    (iface line ds : String) (m u : Int) (hlen : line.length > 0)
    (hds : (pySplitColon (String.mk (pyRemoveSpaces line.data))).get? 1 = some ds)
    (hm : pyInt ds = some m) :
    parse_sram_results [s] ["0"] t 1000 = (if n > t then "FAIL" else "PASS") ∧
    parse_rx_discards_results iface [line] u true =
      some ⟨iface, if m > u then "FAIL" else "PASS"⟩ := by
  constructor
  · have h0 : pyInt "0" = some 0 := by decide
    simp only [parse_sram_results, anyIntAbove, List.any_cons, List.any_nil, hs, h0]
    by_cases hnt : n > t <;> simp [hnt]
  · simp only [parse_rx_discards_results, rxLoop, hds, hm, hlen, if_true]
    by_cases hmu : m > u <;> simp [hmu, rxLoop]

/-- C2 amended, witness at the boundary inputs of the counterexample. -/
theorem threshold_boundary_strict_witness :
    parse_sram_results ["5"] ["0"] 5 1000 = (if (5 : Int) > 5 then "FAIL" else "PASS") ∧
    parse_rx_discards_results "enp12s0f0" ["rx_prio0_discards: 100"] 100 true =
      some ⟨"enp12s0f0", if (100 : Int) > 100 then "FAIL" else "PASS"⟩ :=
  threshold_boundary_strict "5" 5 5 (by decide) "enp12s0f0" "rx_prio0_discards: 100" "100"
    100 100 (by decide) (by decide) (by decide)

/-! ## Claim C3 -/

/-- C3 counterexample: `normalize_pci_address` does map the short-domain
and zero-padded-domain spellings of one address to the same string, but the
GPU-count check's bus-id comparison does not — it only lower-cases, so the
padding variant `0000:0f:00.0` of the expected `00000000:0F:00.0` is
reported as a `wrong busid` failure instead of comparing equal. -/
theorem pci_gpu_count_cex :
    normalize_pci_address "0000:0f:00.0" = normalize_pci_address "00000000:0f:00.0" ∧
    parse_gpu_count_results ["0000:0f:00.0"] ["00000000:0F:00.0"] =
      "FAIL - wrong busid: 0000:0f:00.0" := by
  decide

/-- C3 amended: `normalize_pci_address` maps variants differing only in
domain zero-padding (six leading zeros versus the short domain form) or in
letter case to identical canonical strings; the GPU-count check's
comparison lower-cases both sides and therefore treats case variants — but
only case variants — as equal, reporting PASS when the probe returns the
expected ids up to case. -/
theorem pci_normalization_amended (u s t : String) (raw known : List String)
    (hu : ¬ List.isPrefixOf ['0', '0', '0', '0'] u.data = true)
    (hst : s.data.map Char.toLower = t.data.map Char.toLower)
    (hraw : raw.map pyLowerStr = known.map pyLowerStr)
    (hne : ∀ x ∈ raw, x ≠ "") :
    normalize_pci_address (String.mk (['0', '0', '0', '0', '0', '0'] ++ u.data)) =
      normalize_pci_address (String.mk (['0', '0'] ++ u.data)) ∧
    normalize_pci_address s = normalize_pci_address t ∧
    parse_gpu_count_results raw known = "PASS" := by
  have hz : Char.toLower '0' = '0' := by decide
  have hp6 : ∀ c ∈ ['0', '0', '0', '0', '0', '0'], c = '0' := by decide
  refine ⟨?_, ?_, ?_⟩
  · simp [normalize_pci_address, List.isPrefixOf, hu, hz]
  · have e : List.isPrefixOf ['0', '0', '0', '0', '0', '0'] s.data =
        List.isPrefixOf ['0', '0', '0', '0', '0', '0'] t.data := by
      rw [← isPrefixOf_zeros_map _ hp6 s.data, hst, isPrefixOf_zeros_map _ hp6 t.data]
    simp only [normalize_pci_address]
    by_cases h : List.isPrefixOf ['0', '0', '0', '0', '0', '0'] t.data
    · rw [if_pos (by rw [e]; exact h), if_pos h]
      have : (s.data.drop 6).map Char.toLower = (t.data.drop 6).map Char.toLower := by
        rw [List.map_drop, List.map_drop, hst]
      rw [this]
    · rw [if_neg (by rw [e]; exact h), if_neg h, hst]
  · have hlen : raw.length = known.length := by
      have := congrArg List.length hraw
      simpa using this
    have hcount : (raw.filter (fun item => item ≠ "")).length = raw.length := by
      congr 1
      apply List.filter_eq_self.mpr
      intro a ha
      simpa using hne a ha
    have hfail : raw.filter
        (fun line => decide (line.length > 0 ∧ pyLowerStr line ∉ known.map pyLowerStr)) = [] := by
      apply List.filter_eq_nil_iff.mpr
      intro line hline
      have hmem : pyLowerStr line ∈ known.map pyLowerStr := by
        rw [← hraw]
        exact List.mem_map_of_mem _ hline
      simp [hmem]
    simp only [parse_gpu_count_results]
    rw [hfail]
    rw [if_pos ⟨rfl, by rw [List.length_map, hcount, hlen]⟩]

/-- C3 amended, witness: the padded/short domain pair and a case-variant
probe result accepted by the GPU-count check. -/
theorem pci_normalization_amended_witness :
    normalize_pci_address (String.mk (['0', '0', '0', '0', '0', '0'] ++ ":0f:00.0".data)) =
      normalize_pci_address (String.mk (['0', '0'] ++ ":0f:00.0".data)) ∧
    normalize_pci_address "00000000:0F:00.0" = normalize_pci_address "00000000:0f:00.0" ∧
    parse_gpu_count_results ["00000000:0f:00.0"] ["00000000:0F:00.0"] = "PASS" :=
  pci_normalization_amended ":0f:00.0" "00000000:0F:00.0" "00000000:0f:00.0"
    ["00000000:0f:00.0"] ["00000000:0F:00.0"] (by decide) (by decide) (by decide) (by decide)

/-! ## Claim C4 -/

/-- Each expected device contributes exactly one element, to the interface
list when mapped and to the failure list when missing. -/
theorem build_interface_lists_length (m : List (String × String)) :
    ∀ exp : List String,
      (build_interface_lists m exp).1.length + (build_interface_lists m exp).2.length =
        exp.length := by
  intro exp
  induction exp with
  | nil => simp [build_interface_lists]
  | cons d rest ih =>
    simp only [build_interface_lists]
    by_cases h : m.any (fun p => p.1 = d)
    · simp [h, List.length_cons]
      omega
    · simp [h, List.length_cons]
      omega

/-- An expected device absent from the mapping contributes its failure
placeholder. -/
theorem build_interface_lists_missing (m : List (String × String)) (d : String)
    (hmiss : m.any (fun p => p.1 = d) = false) :
    ∀ exp : List String, d ∈ exp →
      failure_result d ∈ (build_interface_lists m exp).2 := by
  intro exp
  induction exp with
  | nil => simp
  | cons e rest ih =>
    intro hd
    simp only [build_interface_lists]
    rcases List.mem_cons.mp hd with he | hr
    · subst he
      simp [hmiss]
    · by_cases h : m.any (fun p => p.1 = e)
      · simp only [h, if_true]
        exact ih hr
      · simp only [h, Bool.false_eq_true, if_false]
        exact List.mem_cons_of_mem _ (ih hr)

/-- C4: for every expected logical device absent from the device-to-interface
mapping, `run_link_check` still returns normally (the run is not aborted),
its result list contains the all-fields-FAIL placeholder naming the missing
device, and the list still has one entry per expected device, so every
remaining mapped device is probed and evaluated. -/
theorem link_check_missing_device (pf : String → Option ℚ)
    (jload : String → Option MlxPayload) (mapLines : List String)
    (probe : String → List String) (d : String)
    (hd : d ∈ expected_mlx_devices)
    (hmiss : (device_to_interface_map mapLines).any (fun p => p.1 = d) = false) :
    ∃ rs, run_link_check pf jload mapLines probe = some rs ∧
      failure_result d ∈ rs ∧ rs.length = expected_mlx_devices.length := by
  have hlen := build_interface_lists_length (device_to_interface_map mapLines)
    expected_mlx_devices
  have hmem := build_interface_lists_missing (device_to_interface_map mapLines) d hmiss
    expected_mlx_devices hd
  simp only [run_link_check]
  rw [if_neg]
  · refine ⟨_, rfl, ?_, ?_⟩
    · exact List.mem_append_left _ hmem
    · simp only [List.length_append, List.length_map]
      omega
  · rintro ⟨h1, h2⟩
    rw [h1, h2] at hlen
    simp [expected_mlx_devices] at hlen

/-- C4 witness: with an empty device mapping, `mlx5_1` is missing and the
run still yields sixteen per-device results including its placeholder. -/
theorem link_check_missing_device_witness :
    ∃ rs, run_link_check (fun _ => none) (fun _ => none) [] (fun _ => []) = some rs ∧
      failure_result "mlx5_1" ∈ rs ∧ rs.length = expected_mlx_devices.length :=
  link_check_missing_device (fun _ => none) (fun _ => none) [] (fun _ => []) "mlx5_1"
    (by decide) (by decide)

/-! ## Claim C5 -/

/-- The `missing` and `wrong busid` messages are never equal. -/
theorem failMissing_ne_failWrong (a b : String) :
    "FAIL - missing: " ++ a ≠ "FAIL - wrong busid: " ++ b := by
  intro h
  have h2 := congrArg (fun s : String => s.data[7]?) h
  simp only [String.data_append] at h2
  rw [List.getElem?_append_left (by decide), List.getElem?_append_left (by decide)] at h2
  exact absurd h2 (by decide)

/-- C5 counterexample: with two reported GPUs against one expected, the
actual count exceeds the expected count, yet the failure message labels the
discrepancy `missing` — the claim's `missing exactly when actual < expected`
is false on the code. -/
theorem gpu_count_missing_cex :
    parse_gpu_count_results ["00000000:0f:00.0", "00000000:2d:00.0"] ["00000000:0F:00.0"] =
      "FAIL - missing: " ∧
    ((["00000000:0f:00.0", "00000000:2d:00.0"] : List String).filter
        (fun item => item ≠ "")).length > (["00000000:0F:00.0"] : List String).length := by
  decide

/-- C5 amended: on any non-PASS outcome, `parse_gpu_count_results` labels
the discrepancy `wrong busid` exactly when the reported count equals the
expected count (identities differ), and `missing` exactly when the counts
differ — in either direction, so surplus devices are also labelled
`missing`. -/
theorem gpu_count_fail_classification (raw known : List String)
    (hfail : parse_gpu_count_results raw known ≠ "PASS") :
    ((∃ r, parse_gpu_count_results raw known = "FAIL - wrong busid: " ++ r) ↔
      known.length = (raw.filter (fun item => item ≠ "")).length) ∧
    ((∃ r, parse_gpu_count_results raw known = "FAIL - missing: " ++ r) ↔
      known.length ≠ (raw.filter (fun item => item ≠ "")).length) := by
  have hlm : (known.map pyLowerStr).length = known.length := List.length_map _ _
  by_cases hc : known.length = (raw.filter (fun item => item ≠ "")).length
  · by_cases ha : raw.filter
        (fun line => line.length > 0 ∧ pyLowerStr line ∉ known.map pyLowerStr) = []
    · exfalso
      apply hfail
      simp only [parse_gpu_count_results]
      rw [if_pos ⟨ha, by rw [hlm]; exact hc⟩]
    · have heq : parse_gpu_count_results raw known =
          "FAIL - wrong busid: " ++ String.intercalate "," (raw.filter
            (fun line => line.length > 0 ∧ pyLowerStr line ∉ known.map pyLowerStr)) := by
        simp only [parse_gpu_count_results]
        rw [if_neg (fun hh => ha hh.1), if_pos (by rw [hlm]; exact hc)]
      rw [heq]
      refine ⟨⟨fun _ => hc, fun _ => ⟨_, rfl⟩⟩, ⟨fun hex => ?_, fun hne => absurd hc hne⟩⟩
      obtain ⟨r, hr⟩ := hex
      exact absurd hr.symm (failMissing_ne_failWrong r _)
  · have heq : parse_gpu_count_results raw known =
        "FAIL - missing: " ++ String.intercalate ","
          (pySetDiff (known.map pyLowerStr) raw) := by
      simp only [parse_gpu_count_results]
      rw [if_neg (fun hh => hc (by rw [← hlm]; exact hh.2)),
          if_neg (fun hh => hc (by rw [← hlm]; exact hh))]
    rw [heq]
    refine ⟨⟨fun hex => ?_, fun hce => absurd hce hc⟩, ⟨fun _ => hc, fun _ => ⟨_, rfl⟩⟩⟩
    obtain ⟨r, hr⟩ := hex
    exact absurd hr (failMissing_ne_failWrong _ r)

/-- C5 amended, witness at the counterexample's surplus-device input. -/
theorem gpu_count_fail_classification_witness :
    ((∃ r, parse_gpu_count_results ["00000000:0f:00.0", "00000000:2d:00.0"]
        ["00000000:0F:00.0"] = "FAIL - wrong busid: " ++ r) ↔
      (["00000000:0F:00.0"] : List String).length =
        ((["00000000:0f:00.0", "00000000:2d:00.0"] : List String).filter
          (fun item => item ≠ "")).length) ∧
    ((∃ r, parse_gpu_count_results ["00000000:0f:00.0", "00000000:2d:00.0"]
        ["00000000:0F:00.0"] = "FAIL - missing: " ++ r) ↔
      (["00000000:0F:00.0"] : List String).length ≠
        ((["00000000:0f:00.0", "00000000:2d:00.0"] : List String).filter
          (fun item => item ≠ "")).length) :=
  gpu_count_fail_classification _ _ (by decide)

/-! ## Claim C6 -/

/-- C6 counterexample: the claim that every command-execution helper runs
with a bounded timeout is false — `run_cmd_timeout` is `none`, since
`link_check.py`'s helper passes no `timeout` to `subprocess.run`. -/
theorem exec_timeout_cex :
    ¬ (run_command_timeout.isSome = true ∧ run_cmd_timeout.isSome = true) := by decide

/-- C6 amended: `run_command` of the PCIe-width check invokes its probe
with a 30-second timeout and reports expiry as the distinct result
`(124, "", "Command timed out")`; the `link_check` helper, however, passes
no timeout at all, so its invocations are unbounded. -/
theorem exec_timeout_amended :
    run_command_timeout = some 30 ∧
    run_command ExecOutcome.timedOut = (124, "", "Command timed out") ∧
    run_cmd_timeout = none := by decide

/-! ## Claim C7 -/

/-- C7 counterexample: a non-list lane-counter value containing a
non-integer entry (`"3a"`, whose character `a` is not a digit) is silently
converted to the empty sequence, and the `raw_physical_errors_per_lane`
field of the link evaluation stays PASS — the parse error is swallowed,
contrary to the claim. -/
theorem lane_parse_swallow_cex :
    parse_raw_physical_errors_per_lane (.scalar (.sStr "3a")) = [] ∧
    (parse_link_results (fun _ => none)
        (fun _ => some ⟨[], [], [("Raw Physical Errors Per Lane", .scalar (.sStr "3a"))]⟩)
        "eth0" ["x"] "200G" 10000 0).lookup "raw_physical_errors_per_lane" =
      some "PASS" := by decide

/-- C7 amended: a list-valued counter is passed through unchanged and the
evaluation loop skips `"undefined"` entries while surfacing any other
non-integer entry as the non-PASS result `WARN - Unknown`; but a non-list
(string) value is converted per character, and any non-digit character
collapses the whole sequence to `[]`, leaving the lane field PASS — that
parse error is silently swallowed. -/
theorem lane_parse_amended (l : List PyScalar) (s : String) (t : Int)
    (bad : PyScalar) (rest : List PyScalar)
    (hs : ∃ c ∈ s.data, ¬ c.isDigit)
    (hbad : bad ≠ PyScalar.sStr "undefined") (hbadint : pyIntScalar bad = none) :
    parse_raw_physical_errors_per_lane (.vList l) = l ∧
    parse_raw_physical_errors_per_lane (.scalar (.sStr s)) = [] ∧
    lane_loop t (bad :: rest) (bad :: rest) = "WARN - Unknown" := by
  refine ⟨rfl, ?_, ?_⟩
  · simp only [parse_raw_physical_errors_per_lane]
    rw [if_neg]
    intro hall
    obtain ⟨c, hc, hnd⟩ := hs
    exact hnd (List.all_eq_true.mp hall c hc)
  · simp [lane_loop, hbad, hbadint]

/-- C7 amended, witness. -/
theorem lane_parse_amended_witness :
    parse_raw_physical_errors_per_lane (.vList [.sInt 1]) = [.sInt 1] ∧
    parse_raw_physical_errors_per_lane (.scalar (.sStr "3a")) = [] ∧
    lane_loop 0 [PyScalar.sStr "x"] [PyScalar.sStr "x"] = "WARN - Unknown" :=
  lane_parse_amended [.sInt 1] "3a" 0 (.sStr "x") [] (by decide) (by decide) (by decide)

/-! ## Claim C8 -/

/-- C8 counterexample: empty probe output is not valid JSON, yet
`parse_link_results` reports `FAIL - Invalid interface`, not the claimed
`FAIL - Unable to parse mlxlink output` (the decoder oracle is the
everywhere-failing one, so every payload — including this one — is invalid
JSON to it). -/
theorem mlxlink_parse_empty_cex :
    parse_link_results (fun _ => none) (fun _ => none) "eth0" [""] "200G" 10000 0 =
      [("device", "eth0"), ("status", "FAIL - Invalid interface: eth0")] ∧
    "FAIL - Invalid interface: eth0" ≠ "FAIL - Unable to parse mlxlink output" := by decide

/-- C8 amended: for probe output that is non-empty after stripping and does
not carry the command-failure marker, an undecodable payload (invalid JSON
or missing `result`/`output` keys, both modelled by the decode oracle
returning `none`) yields exactly the `FAIL - Unable to parse mlxlink
output` status and no exception; whitespace-only output instead yields the
`FAIL - Invalid interface` status — still a FAIL, never a crash and never a
PASS. -/
theorem mlxlink_parse_fail_amended (jload : String → Option MlxPayload)
    (pf : String → Option ℚ) (iface expected_speed : String) (raw : List String)
    (lane_t eff_t : Int)
    (hpre : ¬ List.isPrefixOf "Error:".data ((raw.map String.data).flatten) = true)
    (hstrip : pyStripChars ((raw.map String.data).flatten) ≠ [])
    (hjson : jload (String.mk ((raw.map String.data).flatten)) = none) :
    parse_link_results pf jload iface raw expected_speed lane_t eff_t =
      [("device", iface), ("status", "FAIL - Unable to parse mlxlink output")] ∧
    (∀ raw2 : List String,
      ¬ List.isPrefixOf "Error:".data ((raw2.map String.data).flatten) = true →
      pyStripChars ((raw2.map String.data).flatten) = [] →
      parse_link_results pf jload iface raw2 expected_speed lane_t eff_t =
        [("device", iface), ("status", "FAIL - Invalid interface: " ++ iface)]) := by
  constructor
  · simp only [parse_link_results]
    rw [if_neg hpre]
    dsimp only
    rw [if_neg hstrip, hjson]
  · intro raw2 hpre2 hstrip2
    simp only [parse_link_results]
    rw [if_neg hpre2]
    dsimp only
    rw [if_pos hstrip2]

/-- C8 amended, witness. -/
theorem mlxlink_parse_fail_amended_witness :
    parse_link_results (fun _ => none) (fun _ => none) "eth0" ["notjson"] "200G" 10000 0 =
      [("device", "eth0"), ("status", "FAIL - Unable to parse mlxlink output")] ∧
    (∀ raw2 : List String,
      ¬ List.isPrefixOf "Error:".data ((raw2.map String.data).flatten) = true →
      pyStripChars ((raw2.map String.data).flatten) = [] →
      parse_link_results (fun _ => none) (fun _ => none) "eth0" raw2 "200G" 10000 0 =
        [("device", "eth0"), ("status", "FAIL - Invalid interface: eth0")]) :=
  mlxlink_parse_fail_amended (fun _ => none) (fun _ => none) "eth0" "200G" ["notjson"]
    10000 0 (by decide) (by decide) rfl

/-! ## Claim C9 -/

/-- C9: an evaluation whose probe returned zero output lines is FAIL, never
PASS — in-cluster `parse_rx_discards_results` on an empty result list
returns status FAIL, and `parse_nvlink_results` on an empty result list
returns the `FAIL - check GPU ` status, for any matcher and float oracles
and any expected values. -/
theorem empty_probe_output_fails (iface : String) (t : Int)
    (g l : String → Option String) (pf : String → Option ℚ) (sp : ℚ) (cnt : Int) :
    parse_rx_discards_results iface [] t true = some ⟨iface, "FAIL"⟩ ∧
    parse_nvlink_results g l pf [] sp cnt = some "FAIL - check GPU " := by
  constructor
  · simp [parse_rx_discards_results, rxLoop]
  · simp [parse_nvlink_results, nvRun]


/-! ## Claim C10 -/

theorem nvStep_ok (g l : String → Option String) (pf : String → Option ℚ) (esp : ℚ)
    (line : String) (hok : nvLinkLineOk g l pf line = true) (st : NvState) :
    nvStep g l pf esp st line =
      some (nvDictPost { st with count :=
        st.count + (if nvLinkQualifies g l pf esp line then 1 else 0) }) := by
  unfold nvLinkLineOk at hok
  rw [Bool.and_eq_true] at hok
  obtain ⟨hg, hrest⟩ := hok
  have hgn : g line = none := Option.isNone_iff_eq_none.mp hg
  cases hl : l line with
  | none => rw [hl] at hrest; simp at hrest
  | some cap =>
    rw [hl] at hrest
    dsimp only at hrest
    by_cases hin : isSubstringOf "inactive".data line.data
    · simp [nvStep, nvLinkQualifies, hgn, hl, hin]
    · rw [if_neg hin] at hrest
      cases hq : pf cap with
      | none => rw [hq] at hrest; simp at hrest
      | some q =>
        by_cases hge : q ≥ esp
        · simp [nvStep, nvLinkQualifies, hgn, hl, hin, hq, hge]
        · simp [nvStep, nvLinkQualifies, hgn, hl, hin, hq, hge]

theorem dictInsertO_mem (m : List (Option String × Int)) (k : Option String) (v : Int) :
    (dictInsertO m k v).any (fun p => p.1 = k) = true := by
  unfold dictInsertO
  by_cases h : m.any (fun p => p.1 = k)
  · rw [if_pos h]
    obtain ⟨p, hp, hpk⟩ := List.any_eq_true.mp h
    apply List.any_eq_true.mpr
    refine ⟨(k, v), List.mem_map.mpr ⟨p, hp, ?_⟩, by simp⟩
    simp only [decide_eq_true_eq] at hpk
    rw [if_pos hpk]
  · rw [if_neg h]
    apply List.any_eq_true.mpr
    exact ⟨(k, v), by simp⟩

theorem dictInsertO_twice (m : List (Option String × Int)) (k : Option String) (v w : Int) :
    dictInsertO (dictInsertO m k v) k w = dictInsertO m k w := by
  by_cases h : m.any (fun p => p.1 = k) = true
  · have e1 : dictInsertO m k v = m.map (fun p => if p.1 = k then (k, v) else p) := by
      unfold dictInsertO; rw [if_pos h]
    have e2 : dictInsertO m k w = m.map (fun p => if p.1 = k then (k, w) else p) := by
      unfold dictInsertO; rw [if_pos h]
    have h3 : ((m.map (fun p => if p.1 = k then (k, v) else p)).any
        (fun p => p.1 = k)) = true := by
      rw [← e1]; exact dictInsertO_mem m k v
    have e3 : dictInsertO (m.map (fun p => if p.1 = k then (k, v) else p)) k w =
        (m.map (fun p => if p.1 = k then (k, v) else p)).map
          (fun p => if p.1 = k then (k, w) else p) := by
      unfold dictInsertO; rw [if_pos h3]
    rw [e1, e3, e2, List.map_map]
    apply List.map_congr_left
    intro p _
    by_cases hpk : p.1 = k
    · simp [hpk]
    · simp [hpk]
  · have e1 : dictInsertO m k v = m ++ [(k, v)] := by
      unfold dictInsertO; rw [if_neg h]
    have e2 : dictInsertO m k w = m ++ [(k, w)] := by
      unfold dictInsertO; rw [if_neg h]
    have h2 : ((m ++ [(k, v)]).any (fun p => p.1 = k)) = true :=
      List.any_eq_true.mpr ⟨(k, v), by simp⟩
    have e3 : dictInsertO (m ++ [(k, v)]) k w =
        (m ++ [(k, v)]).map (fun p => if p.1 = k then (k, w) else p) := by
      unfold dictInsertO; rw [if_pos h2]
    rw [e1, e3, e2, List.map_append]
    congr 1
    · have hall : ∀ p ∈ m, (if p.1 = k then ((k, w) : Option String × Int) else p) = p := by
        intro p hp
        rw [if_neg]
        intro hpk
        exact h (List.any_eq_true.mpr ⟨p, hp, by simp [hpk]⟩)
      rw [List.map_congr_left hall]
      simp
    · simp

theorem nvDictPost_pos (st : NvState) (h : st.count ≠ 0) :
    nvDictPost st = { st with dict := dictInsertO st.dict st.gpu_num st.count } := by
  unfold nvDictPost
  rw [if_pos h]

theorem nvDictPost_zero (st : NvState) (h : st.count = 0) : nvDictPost st = st := by
  unfold nvDictPost
  rw [if_neg (by simp [h])]

theorem nvRun_links_pos (g l : String → Option String) (pf : String → Option ℚ) (esp : ℚ) :
    ∀ (links : List String), (∀ line ∈ links, nvLinkLineOk g l pf line = true) →
    ∀ (gid : String) (c : Int) (d : List (Option String × Int)) (s : String), 0 < c →
      nvRun g l pf esp ⟨some gid, c, d, s⟩ links =
        some ⟨some gid, c + ((links.filter (nvLinkQualifies g l pf esp)).length : Int),
          if links = [] then d
          else dictInsertO d (some gid)
            (c + ((links.filter (nvLinkQualifies g l pf esp)).length : Int)), s⟩ := by
  intro links
  induction links with
  | nil => intro _ gid c d s hc; simp [nvRun]
  | cons line rest ih =>
    intro hok gid c d s hc
    have hline := hok line (by simp)
    have hrest := fun x hx => hok x (List.mem_cons_of_mem _ hx)
    simp only [nvRun]
    rw [nvStep_ok g l pf esp line hline]
    by_cases hq : nvLinkQualifies g l pf esp line = true
    · rw [if_pos hq]
      rw [nvDictPost_pos _ (show (c + 1 : Int) ≠ 0 by omega)]
      dsimp only
      rw [ih hrest gid (c + 1) (dictInsertO d (some gid) (c + 1)) s (by omega)]
      have hkall : (List.filter (nvLinkQualifies g l pf esp) (line :: rest)).length =
          (List.filter (nvLinkQualifies g l pf esp) rest).length + 1 := by
        simp [List.filter_cons, hq]
      rw [hkall, if_neg (show ¬(line :: rest = []) by simp)]
      by_cases hrnil : rest = []
      · subst hrnil
        simp only [List.filter_nil, List.length_nil, if_pos rfl]
        have : (c + 1 : Int) + ((0 : Nat) : Int) = c + (((0 : Nat) + 1 : Nat) : Int) := by
          push_cast; ring
        rw [this]
        norm_num
      · rw [if_neg hrnil, dictInsertO_twice]
        have : (c + 1 : Int) + ((List.filter (nvLinkQualifies g l pf esp) rest).length : Int) =
            c + (((List.filter (nvLinkQualifies g l pf esp) rest).length + 1 : Nat) : Int) := by
          push_cast; ring
        rw [this]
    · rw [if_neg hq]
      rw [nvDictPost_pos _ (show (c + 0 : Int) ≠ 0 by omega)]
      dsimp only
      rw [ih hrest gid (c + 0) (dictInsertO d (some gid) (c + 0)) s (by omega)]
      have hkall : (List.filter (nvLinkQualifies g l pf esp) (line :: rest)).length =
          (List.filter (nvLinkQualifies g l pf esp) rest).length := by
        simp [List.filter_cons, hq]
      rw [hkall, if_neg (show ¬(line :: rest = []) by simp)]
      by_cases hrnil : rest = []
      · subst hrnil
        simp only [List.filter_nil, List.length_nil, if_pos rfl]
        norm_num
      · rw [if_neg hrnil, dictInsertO_twice]
        norm_num

theorem nvRun_links_zero (g l : String → Option String) (pf : String → Option ℚ) (esp : ℚ) :
    ∀ (links : List String), (∀ line ∈ links, nvLinkLineOk g l pf line = true) →
    ∀ (gid : String) (d : List (Option String × Int)) (s : String),
      nvRun g l pf esp ⟨some gid, 0, d, s⟩ links =
        some ⟨some gid, ((links.filter (nvLinkQualifies g l pf esp)).length : Int),
          if (links.filter (nvLinkQualifies g l pf esp)).length = 0 then d
          else dictInsertO d (some gid)
            ((links.filter (nvLinkQualifies g l pf esp)).length : Int), s⟩ := by
  intro links
  induction links with
  | nil => intro _ gid d s; simp [nvRun]
  | cons line rest ih =>
    intro hok gid d s
    have hline := hok line (by simp)
    have hrest := fun x hx => hok x (List.mem_cons_of_mem _ hx)
    simp only [nvRun]
    rw [nvStep_ok g l pf esp line hline]
    by_cases hq : nvLinkQualifies g l pf esp line = true
    · rw [if_pos hq]
      rw [nvDictPost_pos _ (show ((0 : Int) + 1) ≠ 0 by norm_num)]
      dsimp only
      rw [nvRun_links_pos g l pf esp rest hrest gid (0 + 1)
        (dictInsertO d (some gid) (0 + 1)) s (by norm_num)]
      have hkall : (List.filter (nvLinkQualifies g l pf esp) (line :: rest)).length =
          (List.filter (nvLinkQualifies g l pf esp) rest).length + 1 := by
        simp [List.filter_cons, hq]
      rw [hkall, if_neg (show ¬((List.filter (nvLinkQualifies g l pf esp) rest).length + 1 = 0)
        by omega)]
      by_cases hrnil : rest = []
      · subst hrnil
        simp only [List.filter_nil, List.length_nil, if_pos rfl]
        norm_num
      · rw [if_neg hrnil, dictInsertO_twice]
        have : ((0 : Int) + 1) + ((List.filter (nvLinkQualifies g l pf esp) rest).length : Int) =
            (((List.filter (nvLinkQualifies g l pf esp) rest).length + 1 : Nat) : Int) := by
          push_cast; ring
        rw [this]
    · rw [if_neg hq]
      rw [nvDictPost_zero _ (show ((0 : Int) + 0) = 0 by norm_num)]
      dsimp only
      have hkall : (List.filter (nvLinkQualifies g l pf esp) (line :: rest)).length =
          (List.filter (nvLinkQualifies g l pf esp) rest).length := by
        simp [List.filter_cons, hq]
      rw [show ((0 : Int) + 0) = 0 by norm_num, ih hrest gid d s, hkall]

theorem nvRun_append (g l : String → Option String) (pf : String → Option ℚ) (esp : ℚ) :
    ∀ (xs ys : List String) (st : NvState),
      nvRun g l pf esp st (xs ++ ys) =
        match nvRun g l pf esp st xs with
        | none => none
        | some st1 => nvRun g l pf esp st1 ys := by
  intro xs
  induction xs with
  | nil => intro ys st; simp [nvRun]
  | cons x rest ih =>
    intro ys st
    simp only [List.cons_append, nvRun]
    cases nvStep g l pf esp st x with
    | none => rfl
    | some st1 => exact ih ys st1

theorem nvRun_sections (g l : String → Option String) (pf : String → Option ℚ) (esp : ℚ) :
    ∀ (sections : List (String × List String)),
      (∀ sec ∈ sections, (g sec.1).isSome = true ∧
        ∀ line ∈ sec.2, nvLinkLineOk g l pf line = true) →
      ∀ st : NvState, ∃ gpu1 c1,
        nvRun g l pf esp st (nvSectionLines sections) =
          some ⟨gpu1, c1, nvSectionsFold g l pf esp sections st.dict, st.status⟩ := by
  intro sections
  induction sections with
  | nil =>
    intro _ st
    refine ⟨st.gpu_num, st.count, ?_⟩
    simp [nvSectionLines, nvRun, nvSectionsFold]
  | cons sec rest ih =>
    intro hwf st
    obtain ⟨hg, hlines⟩ := hwf sec (by simp)
    have hrest := fun x hx => hwf x (List.mem_cons_of_mem _ hx)
    obtain ⟨gid, hgid⟩ := Option.isSome_iff_exists.mp hg
    have hsec : nvSectionLines (sec :: rest) =
        (sec.1 :: sec.2) ++ nvSectionLines rest := by
      simp [nvSectionLines]
    rw [hsec, nvRun_append]
    have hstep : nvStep g l pf esp st sec.1 =
        some ⟨some gid, 0, st.dict, st.status⟩ := by
      unfold nvStep
      rw [hgid]
      dsimp only
      rw [nvDictPost_zero { st with gpu_num := some gid, count := 0 } rfl]
    have hhead : nvRun g l pf esp st (sec.1 :: sec.2) =
        some ⟨some gid,
          ((sec.2.filter (nvLinkQualifies g l pf esp)).length : Int),
          if (sec.2.filter (nvLinkQualifies g l pf esp)).length = 0 then st.dict
          else dictInsertO st.dict (some gid)
            ((sec.2.filter (nvLinkQualifies g l pf esp)).length : Int), st.status⟩ := by
      simp only [nvRun, hstep]
      exact nvRun_links_zero g l pf esp sec.2 hlines gid st.dict st.status
    rw [hhead]
    dsimp only
    obtain ⟨gpu1, c1, hrec⟩ := ih hrest
      ⟨some gid, ((sec.2.filter (nvLinkQualifies g l pf esp)).length : Int),
        if (sec.2.filter (nvLinkQualifies g l pf esp)).length = 0 then st.dict
        else dictInsertO st.dict (some gid)
          ((sec.2.filter (nvLinkQualifies g l pf esp)).length : Int), st.status⟩
    refine ⟨gpu1, c1, ?_⟩
    rw [hrec]
    simp only [nvSectionsFold]
    by_cases hk : (sec.2.filter (nvLinkQualifies g l pf esp)).length = 0
    · simp only [hk, if_pos rfl, hgid]
    · simp only [if_neg hk, hgid]

theorem dictInsertO_values (d : List (Option String × Int)) (k : Option String)
    (v ec : Int) (hv : v = ec) (hd : ∀ p ∈ d, p.2 = ec) :
    ∀ p ∈ dictInsertO d k v, p.2 = ec := by
  intro p hp
  unfold dictInsertO at hp
  split at hp
  · obtain ⟨q, hq, hqe⟩ := List.mem_map.mp hp
    by_cases hqk : q.1 = k
    · rw [if_pos hqk] at hqe
      rw [← hqe]
      exact hv
    · rw [if_neg hqk] at hqe
      rw [← hqe]
      exact hd q hq
  · rcases List.mem_append.mp hp with h | h
    · exact hd p h
    · simp at h
      rw [h]
      exact hv

theorem dictInsertO_keys (d : List (Option String × Int)) (k : Option String) (v : Int) :
    ∀ q ∈ dictInsertO d k v, q.1 = k ∨ q ∈ d := by
  intro q hq
  unfold dictInsertO at hq
  split at hq
  · obtain ⟨p, hp, hpe⟩ := List.mem_map.mp hq
    by_cases hpk : p.1 = k
    · rw [if_pos hpk] at hpe
      left
      rw [← hpe]
    · rw [if_neg hpk] at hpe
      right
      rw [← hpe]
      exact hp
  · rcases List.mem_append.mp hq with h | h
    · right; exact h
    · simp at h
      left
      rw [h]

theorem nvSectionsFold_values (g l : String → Option String) (pf : String → Option ℚ)
    (esp : ℚ) (ec : Int) :
    ∀ (sections : List (String × List String)) (d : List (Option String × Int)),
      (∀ sec ∈ sections,
        ((sec.2.filter (nvLinkQualifies g l pf esp)).length : Int) = ec ∨
        (sec.2.filter (nvLinkQualifies g l pf esp)).length = 0) →
      (∀ p ∈ d, p.2 = ec) →
      ∀ p ∈ nvSectionsFold g l pf esp sections d, p.2 = ec := by
  intro sections
  induction sections with
  | nil => intro d _ hd p hp; exact hd p hp
  | cons sec rest ih =>
    intro d hall hd
    simp only [nvSectionsFold]
    by_cases hk : (sec.2.filter (nvLinkQualifies g l pf esp)).length = 0
    · rw [if_pos hk]
      exact ih d (fun x hx => hall x (List.mem_cons_of_mem _ hx)) hd
    · rw [if_neg hk]
      apply ih _ (fun x hx => hall x (List.mem_cons_of_mem _ hx))
      apply dictInsertO_values _ _ _ ec _ hd
      rcases hall sec (by simp) with h | h
      · exact h
      · exact absurd h hk

theorem nvSectionsFold_keys (g l : String → Option String) (pf : String → Option ℚ)
    (esp : ℚ) :
    ∀ (sections : List (String × List String)) (d : List (Option String × Int)),
      ∀ q ∈ nvSectionsFold g l pf esp sections d,
        q ∈ d ∨ ∃ sec ∈ sections,
          (sec.2.filter (nvLinkQualifies g l pf esp)).length ≠ 0 ∧ q.1 = g sec.1 := by
  intro sections
  induction sections with
  | nil => intro d q hq; left; exact hq
  | cons sec rest ih =>
    intro d q hq
    simp only [nvSectionsFold] at hq
    by_cases hk : (sec.2.filter (nvLinkQualifies g l pf esp)).length = 0
    · rw [if_pos hk] at hq
      rcases ih d q hq with h | ⟨s2, hs2, hs2k, hs2q⟩
      · left; exact h
      · right; exact ⟨s2, List.mem_cons_of_mem _ hs2, hs2k, hs2q⟩
    · rw [if_neg hk] at hq
      rcases ih _ q hq with h | ⟨s2, hs2, hs2k, hs2q⟩
      · rcases dictInsertO_keys _ _ _ q h with h2 | h2
        · right; exact ⟨sec, by simp, hk, h2⟩
        · left; exact h2
      · right; exact ⟨s2, List.mem_cons_of_mem _ hs2, hs2k, hs2q⟩

/-- C10: for every non-empty well-formed nvlink output organised as GPU
sections, in which each GPU either meets the expected qualifying-link count
or has zero qualifying links (all inactive or all below the expected speed),
and no zero-count GPU shares its number with a counted GPU: the zero-count
GPUs are never entered into the per-GPU count dict, hence never appear in
the fail list, and the overall nvlink status is PASS. -/
theorem nvlink_zero_count_gpu (g l : String → Option String) (pf : String → Option ℚ)
    (esp : ℚ) (expected_count : Int) (sections : List (String × List String))
    (hne : sections ≠ [])
    (hwf : ∀ sec ∈ sections, (g sec.1).isSome = true ∧
      ∀ line ∈ sec.2, nvLinkLineOk g l pf line = true)
    (hcnt : ∀ sec ∈ sections,
      ((sec.2.filter (nvLinkQualifies g l pf esp)).length : Int) = expected_count ∨
      (sec.2.filter (nvLinkQualifies g l pf esp)).length = 0)
    (hfresh : ∀ s1 ∈ sections, ∀ s2 ∈ sections,
      (s1.2.filter (nvLinkQualifies g l pf esp)).length = 0 →
      (s2.2.filter (nvLinkQualifies g l pf esp)).length ≠ 0 →
      g s1.1 ≠ g s2.1) :
    parse_nvlink_results g l pf (nvSectionLines sections) esp expected_count =
      some "PASS" ∧
    ∃ D, nvlinkDict g l pf (nvSectionLines sections) esp = some D ∧
      ∀ sec ∈ sections, (sec.2.filter (nvLinkQualifies g l pf esp)).length = 0 →
        ∀ p ∈ D, p.1 ≠ g sec.1 := by
  have hlines_ne : nvSectionLines sections ≠ [] := by
    cases sections with
    | nil => exact absurd rfl hne
    | cons sec rest => simp [nvSectionLines]
  have hlen : ¬ (nvSectionLines sections).length = 0 := by
    intro h
    exact hlines_ne (List.length_eq_zero.mp h)
  obtain ⟨gpu1, c1, hrun⟩ := nvRun_sections g l pf esp sections hwf
    ⟨none, 0, [],
      if (nvSectionLines sections).length = 0 then "FAIL - check GPU " else "PASS"⟩
  have hvals : ∀ p ∈ nvSectionsFold g l pf esp sections [], p.2 = expected_count :=
    nvSectionsFold_values g l pf esp expected_count sections [] hcnt (by simp)
  dsimp only at hrun
  constructor
  · simp only [parse_nvlink_results]
    rw [hrun]
    dsimp only
    have hfilter : (nvSectionsFold g l pf esp sections []).filter
        (fun p => p.2 ≠ expected_count ∨ (nvSectionLines sections).length = 0) = [] := by
      apply List.filter_eq_nil_iff.mpr
      intro p hp
      simp [hvals p hp, hlen]
    rw [hfilter]
    simp [if_neg hlen, hlines_ne]
  · refine ⟨nvSectionsFold g l pf esp sections [], ?_, ?_⟩
    · simp only [nvlinkDict]
      rw [hrun]
      rfl
    · intro sec hsec hk p hp
      rcases nvSectionsFold_keys g l pf esp sections [] p hp with h | ⟨s2, hs2, hs2k, hs2q⟩
      · simp at h
      · rw [hs2q]
        exact (hfresh sec hsec s2 hs2 hk hs2k).symm

/-- C10 witness: two GPUs, one with a qualifying 26 GB/s link, the other
with only an inactive link; the result is PASS and GPU 1 is absent from the
count dict. -/
theorem nvlink_zero_count_gpu_witness :
    parse_nvlink_results gW lW pfW (nvSectionLines sectionsW) 25 1 = some "PASS" ∧
    ∃ D, nvlinkDict gW lW pfW (nvSectionLines sectionsW) 25 = some D ∧
      ∀ sec ∈ sectionsW, (sec.2.filter (nvLinkQualifies gW lW pfW 25)).length = 0 →
        ∀ p ∈ D, p.1 ≠ gW sec.1 :=
  nvlink_zero_count_gpu gW lW pfW 25 1 sectionsW (by decide) (by decide) (by decide)
    (by decide)
